import Mathlib

set_option maxHeartbeats 1000000

/-!
Shallow embedding of the study-finalization pipeline of
`src/radiology_assistant/agents/study_orchestrator.py` together with the
parts of `src/radiology_assistant/models.py` it consumes, and theorems
about the orchestration behaviour.

Modelling conventions:
* Pydantic `BaseModel` classes become Lean structures with the same field
  names (Python `Optional[T]` becomes `Option T`; Python `str`-enums become
  inductives).
* Each collaborator agent method becomes a function returning
  `Except String r`; an `Except.error msg` models a raised exception whose
  `str(e)` is `msg`.
* The file read `open(ref["file_path"], "rb")` in the CV stage becomes an
  explicit environment function `read_file`; a read failure is the raised
  `OSError`, caught by the surrounding `try`.
* Every call to `datetime.datetime.now()` during one run is abstracted by a
  single `now : String` parameter; the code never inspects timestamp values.
* The model additionally records, next to the returned response, the list of
  arguments each collaborator was invoked with (`AgentCalls`), so that
  statements of the form "the executor is never invoked" are expressible.
-/

namespace RadAssistant

/-- models.py: `StudyPipelineStage` (str enum). -/
inductive StudyPipelineStage
  | CV_ANALYSIS
  | REPORT_DRAFT
  | QA_REVIEW
  | FOLLOWUP_EXTRACTION
  | PATIENT_SUMMARY
deriving DecidableEq, Repr

/-- models.py: `StageStatus` (str enum). -/
inductive StageStatus
  | NOT_RUN
  | SUCCESS
  | SKIPPED
  | FAILED
deriving DecidableEq, Repr

/-- models.py: `PipelineStatus` (str enum). -/
inductive PipelineStatus
  | SUCCESS
  | PARTIAL_SUCCESS
  | FAILED
deriving DecidableEq, Repr

/-- models.py: `QASeverity` (str enum). -/
inductive QASeverity
  | CRITICAL
  | MAJOR
  | MINOR
  | INFO
deriving DecidableEq, Repr

/-- models.py: `QAType` (str enum). -/
inductive QAType
  | CONSISTENCY
  | COMPLETENESS
  | CLARITY
  | STRUCTURE
  | REDUNDANCY
  | TERMINOLOGY
  | OTHER
deriving DecidableEq, Repr

/-- models.py: `QASection` (str enum). -/
inductive QASection
  | TECHNIQUE
  | COMPARISON
  | FINDINGS
  | IMPRESSION
  | OTHER
  | GLOBAL
deriving DecidableEq, Repr

/-- models.py: `QAChangeType` (str enum). -/
inductive QAChangeType
  | SUGGEST_EDIT
  | ADD_SECTION
  | REMOVE_TEXT
  | REORDER
  | NOTE_ONLY
deriving DecidableEq, Repr

/-- models.py: `DiscrepancySeverity` (str enum). -/
inductive DiscrepancySeverity
  | CRITICAL
  | MAJOR
  | MINOR
  | INFO
deriving DecidableEq, Repr

/-- models.py: `LearningEventType` (str enum). -/
inductive LearningEventType
  | ADDENDUM_CORRECTION
  | QA_ISSUE
  | PEER_REVIEW_DISCREPANCY
  | MISSED_FINDING
  | OVER_CALL
  | FOLLOWUP_MISMATCH
  | INTERESTING_CASE
deriving DecidableEq, Repr

/-- models.py: `CVHighlightMode` (str enum). -/
inductive CVHighlightMode
  | attention
  | bounding_boxes
deriving DecidableEq, Repr

/-- models.py: `IncidentalFindingCategory` (str enum). -/
inductive IncidentalFindingCategory
  | pulmonary_nodule
  | liver_lesion
  | renal_cyst
  | adrenal_nodule
  | thyroid_nodule
  | other
deriving DecidableEq, Repr

/-- models.py: `FollowUpType` (str enum). -/
inductive FollowUpType
  | imaging
  | clinical
  | nothing
  | unknown
deriving DecidableEq, Repr

/-- models.py: `RecommendationStrength` (str enum). -/
inductive RecommendationStrength
  | explicit
  | conditional
  | nothing
deriving DecidableEq, Repr

/-- models.py: `PatientReadingLevel` (str enum). -/
inductive PatientReadingLevel
  | VERY_SIMPLE
  | SIMPLE
  | STANDARD
deriving DecidableEq, Repr

/-- models.py: `PatientSummaryTone` (str enum). -/
inductive PatientSummaryTone
  | NEUTRAL
  | REASSURING
deriving DecidableEq, Repr

/-- models.py: `PatientNextStepUrgency` (str enum). -/
inductive PatientNextStepUrgency
  | ROUTINE
  | SOON
  | URGENT
  | UNKNOWN
deriving DecidableEq, Repr

/-- models.py: `Finding`. -/
structure Finding where
  location : String
  type : String
  severity : String
  additional_details : Option String
deriving DecidableEq, Repr

/-- models.py: `ClinicalContext`. -/
structure ClinicalContext where
  patient_info : String
  clinical_presentation : String
  relevant_history : Option String
deriving DecidableEq, Repr

/-- models.py: `KeyFinding`. -/
structure KeyFinding where
  label : String
  category : String
  severity : String
deriving DecidableEq, Repr

/-- models.py: `UsedCVSignal`. -/
structure UsedCVSignal where
  cv_label : String
  included_in_report : Bool
  reasoning : String
deriving DecidableEq, Repr

/-- models.py: `CVHighlightRequest`.  The `modality` field is a required
`str` in the pydantic model; constructing the request with a `None`
modality raises a `ValidationError` (see `cvStage`). -/
structure CVHighlightRequest where
  study_id : Option String
  modality : String
  body_part : Option String
  view : Option String
  assistive_mode : CVHighlightMode
deriving DecidableEq, Repr

/-- models.py: `CVRegionHighlight`.  The float confidence score is carried
opaquely; the orchestrator never reads it. -/
structure CVRegionHighlight where
  label : String
  score : Float
  bbox : Option (Int × Int × Int × Int)
  mask_present : Bool
deriving Repr

/-- models.py: `CVHighlightResult`. -/
structure CVHighlightResult where
  study_id : Option String
  modality : String
  summary : String
  regions : List CVRegionHighlight
  heatmap_png_base64 : Option String
deriving Repr

/-- models.py: `FollowUpInterval`. -/
structure FollowUpInterval where
  years : Int
  months : Int
  weeks : Int
deriving DecidableEq, Repr

/-- models.py: `IncidentalFinding`. -/
structure IncidentalFinding where
  id : String
  description : String
  verbatim_snippet : String
  location : Option String
  size : Option String
  category : IncidentalFindingCategory
  followup_required : Bool
  followup_type : FollowUpType
  followup_modality : Option String
  followup_interval : Option FollowUpInterval
  followup_interval_text : Option String
  followup_rationale : Option String
  recommendation_strength : RecommendationStrength
deriving DecidableEq, Repr

/-- models.py: `ExamMetadata`. -/
structure ExamMetadata where
  accession : Option String
  exam_date : Option String
  modality : Option String
  body_region : Option String
  age : Option Int
  sex : Option String
deriving DecidableEq, Repr

/-- models.py: `FollowUpExtractionRequest`. -/
structure FollowUpExtractionRequest where
  exam_metadata : ExamMetadata
  report_text : String
deriving DecidableEq, Repr

/-- models.py: `FollowUpExtractionResponse`. -/
structure FollowUpExtractionResponse where
  version : String
  incidental_findings : List IncidentalFinding
  global_followup_comment : Option String
  has_any_followup : Bool
deriving DecidableEq, Repr

/-- models.py: `QARequiredFields`. -/
structure QARequiredFields where
  modality : Option String
  body_region : Option String
  required_sections : List QASection
deriving DecidableEq, Repr

/-- models.py: `QAIssue`.  The source field named `section` is rendered
`qa_section` because `section` is a Lean keyword. -/
structure QAIssue where
  id : String
  severity : QASeverity
  type : QAType
  qa_section : QASection
  description : String
  location_hint : Option String
  suggested_change_type : QAChangeType
  suggested_text : Option String
deriving DecidableEq, Repr

/-- models.py: `QASummary`. -/
structure QASummary where
  overall_quality : String
  num_critical : Int
  num_major : Int
  num_minor : Int
  comments : Option String
deriving DecidableEq, Repr

/-- models.py: `ReportQARequest`. -/
structure ReportQARequest where
  exam_metadata : ExamMetadata
  report_text : String
  qa_requirements : Option QARequiredFields
deriving DecidableEq, Repr

/-- models.py: `ReportQAResponse`. -/
structure ReportQAResponse where
  version : String
  original_report_text : String
  normalized_report_text : Option String
  issues : List QAIssue
  summary : QASummary
deriving DecidableEq, Repr

/-- models.py: `GlossaryItem`. -/
structure GlossaryItem where
  term : String
  explanation : String
deriving DecidableEq, Repr

/-- models.py: `PatientNextStep`. -/
structure PatientNextStep where
  description : String
  urgency : PatientNextStepUrgency
  followup_interval : Option FollowUpInterval
  source_finding_id : Option String
deriving DecidableEq, Repr

/-- models.py: `PatientReportSummaryRequest`. -/
structure PatientReportSummaryRequest where
  exam_metadata : ExamMetadata
  report_text : String
  followup_data : Option FollowUpExtractionResponse
  reading_level : PatientReadingLevel
  tone : PatientSummaryTone
  language_code : String
deriving DecidableEq, Repr

/-- models.py: `PatientReportSummaryResponse`. -/
structure PatientReportSummaryResponse where
  version : String
  patient_summary_text : String
  key_points : List String
  next_steps : List PatientNextStep
  glossary : List GlossaryItem
  original_report_text : String
deriving DecidableEq, Repr

/-- models.py: `ReportDraftRequest`. -/
structure ReportDraftRequest where
  findings : List Finding
  clinical_context : ClinicalContext
  modality : Option String
  view : Option String
  prior_study_summary : Option String
  cv_summary : Option CVHighlightResult
deriving Repr

/-- models.py: `ReportDraft`.  The float `confidence_score` is carried
opaquely; the orchestrator never reads it. -/
structure ReportDraft where
  report_text : String
  key_findings : List KeyFinding
  used_cv_signals : List UsedCVSignal
  confidence_score : Float
deriving Repr

/-- models.py: `LearningEvent`.  `triage_info : Dict[str, Any]` is modelled
as an association list of strings; the orchestrator always leaves it `None`. -/
structure LearningEvent where
  event_id : String
  radiologist_id : String
  exam_metadata : ExamMetadata
  event_type : LearningEventType
  severity : DiscrepancySeverity
  source : String
  timestamp : String
  report_text_before : Option String
  report_text_after : Option String
  qa_issues : Option (List QAIssue)
  followup_data : Option FollowUpExtractionResponse
  triage_info : Option (List (String × String))
  tags : List String
deriving DecidableEq, Repr

/-- models.py: `PipelineOptions`. -/
structure PipelineOptions where
  run_cv_analysis : Bool
  run_qa_review : Bool
  run_followup_extraction : Bool
  run_patient_summary : Bool
  max_stage_timeout_seconds : Option Int
deriving DecidableEq, Repr

/-- An element of `image_references : List[Dict[str, Any]]`.  The
orchestrator only ever looks up the `"file_path"` key and uses its value as
a path string, so a reference is modelled as a string-valued association
list. -/
abbrev ImageRef := List (String × String)

/-- models.py: `StudyOrchestrationRequest`. -/
structure StudyOrchestrationRequest where
  study_id : String
  exam_metadata : ExamMetadata
  clinical_context : ClinicalContext
  image_references : Option (List ImageRef)
  prior_report_text : Option String
  radiologist_id : Option String
  pipeline_options : PipelineOptions
  language_code : String
  dry_run : Bool
deriving DecidableEq, Repr

/-- models.py: `StageResult`.  `metadata : Dict[str, Any]` is modelled as a
string association list; the orchestrator always leaves it empty. -/
structure StageResult where
  stage : StudyPipelineStage
  status : StageStatus
  error : Option String
  started_at : Option String
  finished_at : Option String
  metadata : List (String × String)
deriving DecidableEq, Repr

/-- models.py: `StudyBundle`. -/
structure StudyBundle where
  study_id : String
  exam_metadata : ExamMetadata
  cv_analysis : Option CVHighlightResult
  report_draft : Option ReportDraft
  qa_result : Option ReportQAResponse
  final_report_text : Option String
  followup_data : Option FollowUpExtractionResponse
  patient_summary : Option PatientReportSummaryResponse
deriving Repr

/-- The `generation_metadata` dictionary initialized by the orchestrator;
its two list entries are never appended to. -/
structure GenerationMetadata where
  cv_models_used : List String
  llm_models_used : List String
deriving DecidableEq, Repr

/-- models.py: `StudyOrchestrationResponse`. -/
structure StudyOrchestrationResponse where
  version : String
  pipeline_status : PipelineStatus
  study_id : String
  bundle : StudyBundle
  stages : List StageResult
  generation_metadata : GenerationMetadata
deriving Repr

/-- The collaborators injected into `StudyOrchestratorAgent.__init__`, plus
the file system consulted by the CV stage.  Each agent method returns
`Except String r`; `Except.error msg` models a raised exception with
`str(e) = msg`.  `learning_repo` is the optional learning-event sink; its
value is the `save` method (the concrete `SQLLearningEventRepository`
defines `save`, so the defensive `hasattr(self.learning_repo, "save")`
check in the source passes for a configured sink). -/
structure Env where
  report_drafter : ReportDraftRequest → Except String ReportDraft
  qa_agent : ReportQARequest → Except String ReportQAResponse
  followup_agent : FollowUpExtractionRequest → Except String FollowUpExtractionResponse
  patient_explainer : PatientReportSummaryRequest → Except String PatientReportSummaryResponse
  cv_agent : Option (CVHighlightRequest → List Nat → Except String CVHighlightResult)
  learning_repo : Option (LearningEvent → Except String Unit)
  read_file : String → Except String (List Nat)

/-- The argument lists of the collaborator invocations performed during one
run (instrumentation of the model; `save` holds the events handed to the
learning-event sink). -/
structure AgentCalls where
  cv : List CVHighlightRequest
  draft : List ReportDraftRequest
  qa : List ReportQARequest
  followup : List FollowUpExtractionRequest
  summary : List PatientReportSummaryRequest
  save : List LearningEvent
deriving Repr

/-- A full run: the returned response together with the invocation trace. -/
structure RunTrace where
  response : StudyOrchestrationResponse
  calls : AgentCalls
deriving Repr

/-- study_orchestrator.py: the local helper `record_stage` (minus the
mutable append, rendered by returning the constructed `StageResult`). -/
def record_stage (now : String) (stage : StudyPipelineStage) (status : StageStatus)
    (error : Option String) : StageResult :=
  { stage := stage
    status := status
    error := error
    started_at := if status = StageStatus.NOT_RUN then none else some now
    finished_at := some now
    metadata := [] }

/-- Python truthiness of `request.image_references : Optional[List[Dict]]`:
true exactly for a present, non-empty list. -/
def imageRefsPresent : Option (List ImageRef) → Bool
  | some (_ :: _) => true
  | _ => false

/-- The `generation_metadata` dict as initialized at the start of a run. -/
def initialGenerationMetadata : GenerationMetadata :=
  { cv_models_used := [], llm_models_used := [] }

/-- Outcome of the CV stage block: the recorded `StageResult`, the value
assigned to `bundle.cv_analysis`, and the CV invocations performed. -/
structure CVOut where
  result : StageResult
  analysis : Option CVHighlightResult
  calls : List CVHighlightRequest

/-- study_orchestrator.py lines 82-121, Stage 1 (CV analysis).  The guard
`run_cv_analysis and self.cv_agent and request.image_references` is rendered
as a match on the two optional values plus the boolean; the `try` block
first reads the file (a read failure is the caught exception, recorded
`FAILED`), then constructs `CVHighlightRequest` (pydantic raises a caught
`ValidationError` when `exam_metadata.modality` is `None`, since `modality`
is a required `str`), then invokes the agent.  In the `else` arm the status
is `SKIPPED` when the option is off or the reference list is falsy,
otherwise `NOT_RUN`, and is overridden to `SKIPPED` when no CV agent is
configured. -/
def cvStage (env : Env) (request : StudyOrchestrationRequest) (now : String) : CVOut :=
  match env.cv_agent, request.image_references with
  | some highlight, some (ref :: _) =>
    if request.pipeline_options.run_cv_analysis then
      match List.lookup "file_path" ref with
      | some path =>
        match env.read_file path with
        | Except.error e =>
          { result := record_stage now StudyPipelineStage.CV_ANALYSIS StageStatus.FAILED (some e)
            analysis := none
            calls := [] }
        | Except.ok img_bytes =>
          match request.exam_metadata.modality with
          | none =>
            { result := record_stage now StudyPipelineStage.CV_ANALYSIS StageStatus.FAILED
                (some "1 validation error for CVHighlightRequest modality none is not an allowed value")
              analysis := none
              calls := [] }
          | some m =>
            let cv_req : CVHighlightRequest :=
              { study_id := some request.study_id
                modality := m
                body_part := none
                view := none
                assistive_mode := CVHighlightMode.attention }
            match highlight cv_req img_bytes with
            | Except.ok cv_result =>
              { result := record_stage now StudyPipelineStage.CV_ANALYSIS StageStatus.SUCCESS none
                analysis := some cv_result
                calls := [cv_req] }
            | Except.error e =>
              { result := record_stage now StudyPipelineStage.CV_ANALYSIS StageStatus.FAILED (some e)
                analysis := none
                calls := [cv_req] }
      | none =>
        { result := record_stage now StudyPipelineStage.CV_ANALYSIS StageStatus.SKIPPED
            (some "No file_path in image_references")
          analysis := none
          calls := [] }
    else
      { result := record_stage now StudyPipelineStage.CV_ANALYSIS StageStatus.SKIPPED none
        analysis := none
        calls := [] }
  | _, _ =>
    let s1 := if ¬request.pipeline_options.run_cv_analysis
                 ∨ imageRefsPresent request.image_references = false
              then StageStatus.SKIPPED else StageStatus.NOT_RUN
    let s2 := if env.cv_agent.isNone then StageStatus.SKIPPED else s1
    { result := record_stage now StudyPipelineStage.CV_ANALYSIS s2 none
      analysis := none
      calls := [] }

/-- study_orchestrator.py lines 134-139: the `ReportDraftRequest` built for
the critical draft stage (`cv_summary` is the CV stage's bundle value). -/
def draftRequestOf (env : Env) (request : StudyOrchestrationRequest) (now : String) :
    ReportDraftRequest :=
  { findings := []
    clinical_context := request.clinical_context
    modality := request.exam_metadata.modality
    view := none
    prior_study_summary := none
    cv_summary := (cvStage env request now).analysis }

/-- Outcome of the QA stage block: the recorded `StageResult`, the value
assigned to `bundle.qa_result`, the value assigned to
`bundle.final_report_text`, and the QA invocations performed. -/
structure QAOut where
  result : StageResult
  qa : Option ReportQAResponse
  finalText : String
  calls : List ReportQARequest

/-- study_orchestrator.py lines 162-187, Stage 3 (QA review), reached only
when the draft stage produced usable text `t`.  On success the final
report text is the QA-normalized text when that is truthy (present and
non-empty), else `t`; on exception the stage is `FAILED` and the final text
falls back to `t`; when disabled the stage is `SKIPPED` and the final text
is `t`. -/
def qaStep (env : Env) (request : StudyOrchestrationRequest) (now t : String) : QAOut :=
  if request.pipeline_options.run_qa_review then
    let qa_req : ReportQARequest :=
      { exam_metadata := request.exam_metadata, report_text := t, qa_requirements := none }
    match env.qa_agent qa_req with
    | Except.ok qa_result =>
      let ft := match qa_result.normalized_report_text with
                | some n => if n = "" then t else n
                | none => t
      { result := record_stage now StudyPipelineStage.QA_REVIEW StageStatus.SUCCESS none
        qa := some qa_result
        finalText := ft
        calls := [qa_req] }
    | Except.error e =>
      { result := record_stage now StudyPipelineStage.QA_REVIEW StageStatus.FAILED (some e)
        qa := none
        finalText := t
        calls := [qa_req] }
  else
    { result := record_stage now StudyPipelineStage.QA_REVIEW StageStatus.SKIPPED none
      qa := none
      finalText := t
      calls := [] }

/-- Outcome of the follow-up stage block. -/
structure FUOut where
  result : StageResult
  fu : Option FollowUpExtractionResponse
  calls : List FollowUpExtractionRequest

/-- study_orchestrator.py lines 189-203, Stage 4 (follow-up extraction),
operating on the final report text decided by the QA step. -/
def fuStep (env : Env) (request : StudyOrchestrationRequest) (now finalText : String) : FUOut :=
  if request.pipeline_options.run_followup_extraction then
    let fu_req : FollowUpExtractionRequest :=
      { exam_metadata := request.exam_metadata, report_text := finalText }
    match env.followup_agent fu_req with
    | Except.ok fu_result =>
      { result := record_stage now StudyPipelineStage.FOLLOWUP_EXTRACTION StageStatus.SUCCESS none
        fu := some fu_result
        calls := [fu_req] }
    | Except.error e =>
      { result := record_stage now StudyPipelineStage.FOLLOWUP_EXTRACTION StageStatus.FAILED (some e)
        fu := none
        calls := [fu_req] }
  else
    { result := record_stage now StudyPipelineStage.FOLLOWUP_EXTRACTION StageStatus.SKIPPED none
      fu := none
      calls := [] }

/-- Outcome of the patient-summary stage block. -/
structure PSOut where
  result : StageResult
  ps : Option PatientReportSummaryResponse
  calls : List PatientReportSummaryRequest

/-- study_orchestrator.py lines 205-221, Stage 5 (patient summary),
consuming the final report text and the follow-up output if present. -/
def psStep (env : Env) (request : StudyOrchestrationRequest) (now finalText : String)
    (fuOpt : Option FollowUpExtractionResponse) : PSOut :=
  if request.pipeline_options.run_patient_summary then
    let ps_req : PatientReportSummaryRequest :=
      { exam_metadata := request.exam_metadata
        report_text := finalText
        followup_data := fuOpt
        reading_level := PatientReadingLevel.SIMPLE
        tone := PatientSummaryTone.NEUTRAL
        language_code := request.language_code }
    match env.patient_explainer ps_req with
    | Except.ok ps_result =>
      { result := record_stage now StudyPipelineStage.PATIENT_SUMMARY StageStatus.SUCCESS none
        ps := some ps_result
        calls := [ps_req] }
    | Except.error e =>
      { result := record_stage now StudyPipelineStage.PATIENT_SUMMARY StageStatus.FAILED (some e)
        ps := none
        calls := [ps_req] }
  else
    { result := record_stage now StudyPipelineStage.PATIENT_SUMMARY StageStatus.SKIPPED none
      ps := none
      calls := [] }

/-- study_orchestrator.py lines 245-250: the `sev_map` QA-to-discrepancy
severity dictionary (total on all four keys, so the `.get` default `INFO`
is never used). -/
def sev_map : QASeverity → DiscrepancySeverity
  | QASeverity.CRITICAL => DiscrepancySeverity.CRITICAL
  | QASeverity.MAJOR => DiscrepancySeverity.MAJOR
  | QASeverity.MINOR => DiscrepancySeverity.MINOR
  | QASeverity.INFO => DiscrepancySeverity.INFO

/-- study_orchestrator.py lines 252-256: the highest-severity loop, with
the `break` on the first `CRITICAL` issue rendered as an early return. -/
def maxSevLoop : List QAIssue → DiscrepancySeverity → DiscrepancySeverity
  | [], max_sev => max_sev
  | i :: rest, max_sev =>
    let s := sev_map i.severity
    if s = DiscrepancySeverity.CRITICAL then DiscrepancySeverity.CRITICAL
    else if s = DiscrepancySeverity.MAJOR ∧ max_sev ≠ DiscrepancySeverity.CRITICAL then
      maxSevLoop rest DiscrepancySeverity.MAJOR
    else maxSevLoop rest max_sev

/-- study_orchestrator.py line 240: an issue of severity CRITICAL or MAJOR
(`i.severity in [QASeverity.CRITICAL, QASeverity.MAJOR]`). -/
def significantIssue (i : QAIssue) : Bool :=
  i.severity = QASeverity.CRITICAL ∨ i.severity = QASeverity.MAJOR

/-- An issue of severity CRITICAL. -/
def criticalIssue (i : QAIssue) : Bool :=
  i.severity = QASeverity.CRITICAL

/-- An issue of severity MAJOR. -/
def majorIssue (i : QAIssue) : Bool :=
  i.severity = QASeverity.MAJOR

/-- study_orchestrator.py lines 232-278: the optional learning-event
emission after a successful critical path.  Returns the list of events
handed to the sink (empty or a singleton).  The `save` call is best-effort:
its `Except` outcome is discarded, modelling the swallowed exception. -/
def emitLearning (env : Env) (request : StudyOrchestrationRequest) (now : String)
    (draft : ReportDraft) (qaOpt : Option ReportQAResponse) (finalText : String) :
    List LearningEvent :=
  match env.learning_repo, request.radiologist_id, qaOpt with
  | some save_fn, some rid, some qa_result =>
    if ¬request.dry_run ∧ rid ≠ "" ∧ qa_result.issues ≠ [] then
      let has_significant := qa_result.issues.any significantIssue
      if has_significant then
        let event : LearningEvent :=
          { event_id := "orch_" ++ request.study_id ++ "_" ++ now
            radiologist_id := rid
            exam_metadata := request.exam_metadata
            event_type := LearningEventType.QA_ISSUE
            severity := maxSevLoop qa_result.issues DiscrepancySeverity.INFO
            source := "orchestrator_pipeline"
            timestamp := now
            report_text_before := some draft.report_text
            report_text_after := some finalText
            qa_issues := some qa_result.issues
            followup_data := none
            triage_info := none
            tags := [] }
        let _ := save_fn event
        [event]
      else []
    else []
  | _, _, _ => []

/-- study_orchestrator.py: `StudyOrchestratorAgent.orchestrate_study`.  The
critical-path decision `if report_failed or not current_report_text` splits
into the drafter raising (stage recorded `FAILED`) and the drafter
returning a draft with empty `report_text` (stage recorded `SUCCESS`);
in both cases the three downstream stages are recorded `SKIPPED` with
"Upstream dependency failed" and the pipeline status is `FAILED`.
Otherwise QA, follow-up and patient-summary run, the status is
`PARTIAL_SUCCESS` exactly when some recorded stage `FAILED` else `SUCCESS`,
and the learning event may be emitted. -/
def orchestrate_study (env : Env) (now : String) (request : StudyOrchestrationRequest) :
    RunTrace :=
  let cv := cvStage env request now
  let draft_req := draftRequestOf env request now
  match env.report_drafter draft_req with
  | Except.error e =>
    { response :=
        { version := "v1"
          pipeline_status := PipelineStatus.FAILED
          study_id := request.study_id
          bundle :=
            { study_id := request.study_id
              exam_metadata := request.exam_metadata
              cv_analysis := cv.analysis
              report_draft := none
              qa_result := none
              final_report_text := none
              followup_data := none
              patient_summary := none }
          stages :=
            [cv.result,
             record_stage now StudyPipelineStage.REPORT_DRAFT StageStatus.FAILED (some e),
             record_stage now StudyPipelineStage.QA_REVIEW StageStatus.SKIPPED
               (some "Upstream dependency failed"),
             record_stage now StudyPipelineStage.FOLLOWUP_EXTRACTION StageStatus.SKIPPED
               (some "Upstream dependency failed"),
             record_stage now StudyPipelineStage.PATIENT_SUMMARY StageStatus.SKIPPED
               (some "Upstream dependency failed")]
          generation_metadata := initialGenerationMetadata }
      calls :=
        { cv := cv.calls, draft := [draft_req], qa := [], followup := [], summary := [],
          save := [] } }
  | Except.ok draft_result =>
    if draft_result.report_text = "" then
      { response :=
          { version := "v1"
            pipeline_status := PipelineStatus.FAILED
            study_id := request.study_id
            bundle :=
              { study_id := request.study_id
                exam_metadata := request.exam_metadata
                cv_analysis := cv.analysis
                report_draft := some draft_result
                qa_result := none
                final_report_text := none
                followup_data := none
                patient_summary := none }
            stages :=
              [cv.result,
               record_stage now StudyPipelineStage.REPORT_DRAFT StageStatus.SUCCESS none,
               record_stage now StudyPipelineStage.QA_REVIEW StageStatus.SKIPPED
                 (some "Upstream dependency failed"),
               record_stage now StudyPipelineStage.FOLLOWUP_EXTRACTION StageStatus.SKIPPED
                 (some "Upstream dependency failed"),
               record_stage now StudyPipelineStage.PATIENT_SUMMARY StageStatus.SKIPPED
                 (some "Upstream dependency failed")]
            generation_metadata := initialGenerationMetadata }
        calls :=
          { cv := cv.calls, draft := [draft_req], qa := [], followup := [], summary := [],
            save := [] } }
    else
      let qa := qaStep env request now draft_result.report_text
      let fu := fuStep env request now qa.finalText
      let ps := psStep env request now qa.finalText fu.fu
      let stages :=
        [cv.result,
         record_stage now StudyPipelineStage.REPORT_DRAFT StageStatus.SUCCESS none,
         qa.result, fu.result, ps.result]
      let pipeline_status :=
        if stages.any (fun s => s.status = StageStatus.FAILED)
        then PipelineStatus.PARTIAL_SUCCESS
        else PipelineStatus.SUCCESS
      let events := emitLearning env request now draft_result qa.qa qa.finalText
      { response :=
          { version := "v1"
            pipeline_status := pipeline_status
            study_id := request.study_id
            bundle :=
              { study_id := request.study_id
                exam_metadata := request.exam_metadata
                cv_analysis := cv.analysis
                report_draft := some draft_result
                qa_result := qa.qa
                final_report_text := some qa.finalText
                followup_data := fu.fu
                patient_summary := ps.ps }
            stages := stages
            generation_metadata := initialGenerationMetadata }
        calls :=
          { cv := cv.calls, draft := [draft_req], qa := qa.calls, followup := fu.calls,
            summary := ps.calls, save := events } }

/-- The fixed pipeline stage order. -/
def pipelineStageOrder : List StudyPipelineStage :=
  [StudyPipelineStage.CV_ANALYSIS, StudyPipelineStage.REPORT_DRAFT,
   StudyPipelineStage.QA_REVIEW, StudyPipelineStage.FOLLOWUP_EXTRACTION,
   StudyPipelineStage.PATIENT_SUMMARY]

/-- The ledger entry recorded for a given stage (the first entry with that
stage identity). -/
def stageEntry (resp : StudyOrchestrationResponse) (st : StudyPipelineStage) :
    Option StageResult :=
  resp.stages.find? fun r => r.stage = st

/-- The status recorded for a given stage. -/
def stageStatusOf (resp : StudyOrchestrationResponse) (st : StudyPipelineStage) :
    Option StageStatus :=
  (stageEntry resp st).map StageResult.status

/-- The error/reason string recorded for a given stage. -/
def stageErrorOf (resp : StudyOrchestrationResponse) (st : StudyPipelineStage) :
    Option String :=
  (stageEntry resp st).bind StageResult.error

/-! Concrete fixtures, mirroring the fixtures of
`tests/test_study_orchestrator.py`; used as witnesses and counterexamples. -/

/-- Sample exam metadata (modality "CX", accession "A123"). -/
def examMeta0 : ExamMetadata :=
  { accession := some "A123", exam_date := none, modality := some "CX",
    body_region := none, age := none, sex := none }

/-- Sample clinical context. -/
def clin0 : ClinicalContext :=
  { patient_info := "Patient A", clinical_presentation := "Cough", relevant_history := none }

/-- Default pipeline options (all stages enabled, as in `PipelineOptions()`). -/
def options0 : PipelineOptions :=
  { run_cv_analysis := true, run_qa_review := true, run_followup_extraction := true,
    run_patient_summary := true, max_stage_timeout_seconds := none }

/-- Sample orchestration request "S123" with no image references. -/
def request0 : StudyOrchestrationRequest :=
  { study_id := "S123", exam_metadata := examMeta0, clinical_context := clin0,
    image_references := none, prior_report_text := none, radiologist_id := some "R1",
    pipeline_options := options0, language_code := "en", dry_run := false }

/-- Sample successful draft. -/
def draft0 : ReportDraft :=
  { report_text := "Draft Report", key_findings := [], used_cv_signals := [],
    confidence_score := 0.9 }

/-- Sample empty-text draft (the executor returns without raising but the
draft carries no usable report text). -/
def draftEmpty : ReportDraft :=
  { report_text := "", key_findings := [], used_cv_signals := [], confidence_score := 0.9 }

/-- Sample QA summary. -/
def qaSummary0 : QASummary :=
  { overall_quality := "good", num_critical := 0, num_major := 0, num_minor := 0,
    comments := none }

/-- Sample clean QA response (normalized text, no issues). -/
def qaResp0 : ReportQAResponse :=
  { version := "v1", original_report_text := "Draft Report",
    normalized_report_text := some "Clean Report", issues := [], summary := qaSummary0 }

/-- A QA issue of severity MAJOR. -/
def issueMajor : QAIssue :=
  { id := "I1", severity := QASeverity.MAJOR, type := QAType.CLARITY,
    qa_section := QASection.FINDINGS, description := "vague wording",
    location_hint := none, suggested_change_type := QAChangeType.NOTE_ONLY,
    suggested_text := none }

/-- Sample QA response flagging one MAJOR issue. -/
def qaRespMajor : ReportQAResponse :=
  { version := "v1", original_report_text := "Draft Report",
    normalized_report_text := some "Clean Report", issues := [issueMajor],
    summary := qaSummary0 }

/-- Sample follow-up extraction response. -/
def fuResp0 : FollowUpExtractionResponse :=
  { version := "v1", incidental_findings := [], global_followup_comment := none,
    has_any_followup := false }

/-- Sample patient summary response. -/
def psResp0 : PatientReportSummaryResponse :=
  { version := "v1", patient_summary_text := "Clean Report", key_points := [],
    next_steps := [], glossary := [], original_report_text := "Clean Report" }

/-- Environment in which every agent succeeds; no CV agent is configured
and the learning sink accepts every event. -/
def env0 : Env :=
  { report_drafter := fun _ => Except.ok draft0
    qa_agent := fun _ => Except.ok qaResp0
    followup_agent := fun _ => Except.ok fuResp0
    patient_explainer := fun _ => Except.ok psResp0
    cv_agent := none
    learning_repo := some fun _ => Except.ok ()
    read_file := fun _ => Except.error "No such file or directory" }

/-- Environment whose report drafter raises `Exception("LLM Error")`. -/
def envDraftFails : Env :=
  { env0 with report_drafter := fun _ => Except.error "LLM Error" }

/-- Environment whose report drafter returns an empty-text draft. -/
def envDraftEmpty : Env :=
  { env0 with report_drafter := fun _ => Except.ok draftEmpty }

/-- Environment whose QA agent flags one MAJOR issue. -/
def envQAMajor : Env :=
  { env0 with qa_agent := fun _ => Except.ok qaRespMajor }

/-- A dummy CV agent used in CV-stage scenarios. -/
def cvAgent0 : CVHighlightRequest → List Nat → Except String CVHighlightResult :=
  fun creq _ =>
    Except.ok { study_id := creq.study_id, modality := creq.modality,
                summary := "Suspicious opacity", regions := [], heatmap_png_base64 := none }

/-- Environment with a CV agent configured but an unreadable file system
(every `open` raises). -/
def envCVUnreadable : Env :=
  { env0 with cv_agent := some cvAgent0 }

/-- Request carrying one image reference whose `file_path` does not resolve
to a readable file under `envCVUnreadable`. -/
def requestWithImage : StudyOrchestrationRequest :=
  { request0 with image_references := some [[("file_path", "/data/img1.dcm")]] }

/-- The learning event emitted by the run
`orchestrate_study envQAMajor "t0" request0`. -/
def eventW : LearningEvent :=
  { event_id := "orch_S123_t0"
    radiologist_id := "R1"
    exam_metadata := examMeta0
    event_type := LearningEventType.QA_ISSUE
    severity := DiscrepancySeverity.MAJOR
    source := "orchestrator_pipeline"
    timestamp := "t0"
    report_text_before := some "Draft Report"
    report_text_after := some "Clean Report"
    qa_issues := some [issueMajor]
    followup_data := none
    triage_info := none
    tags := [] }

/-! Helper lemmas about the per-stage blocks. -/

@[simp] theorem record_stage_stage (now : String) (st : StudyPipelineStage)
    (s : StageStatus) (e : Option String) : (record_stage now st s e).stage = st := rfl

@[simp] theorem record_stage_status (now : String) (st : StudyPipelineStage)
    (s : StageStatus) (e : Option String) : (record_stage now st s e).status = s := rfl

@[simp] theorem record_stage_error (now : String) (st : StudyPipelineStage)
    (s : StageStatus) (e : Option String) : (record_stage now st s e).error = e := rfl

@[simp] theorem cvStage_stage (env : Env) (req : StudyOrchestrationRequest) (now : String) :
    (cvStage env req now).result.stage = StudyPipelineStage.CV_ANALYSIS := by
  simp only [cvStage]
  repeat' split
  all_goals rfl

theorem cvStage_status_ne_not_run (env : Env) (req : StudyOrchestrationRequest)
    (now : String) : (cvStage env req now).result.status ≠ StageStatus.NOT_RUN := by
  simp only [cvStage]
  rcases hcv : env.cv_agent with _ | hl <;>
    rcases him : req.image_references with _ | ⟨_ | ⟨ref, rest⟩⟩ <;>
    repeat' split
  all_goals simp_all [record_stage, imageRefsPresent]

@[simp] theorem qaStep_stage (env : Env) (req : StudyOrchestrationRequest) (now t : String) :
    (qaStep env req now t).result.stage = StudyPipelineStage.QA_REVIEW := by
  simp only [qaStep]
  repeat' split
  all_goals rfl

theorem qaStep_status_ne_not_run (env : Env) (req : StudyOrchestrationRequest)
    (now t : String) : (qaStep env req now t).result.status ≠ StageStatus.NOT_RUN := by
  simp only [qaStep]
  repeat' split
  all_goals simp [record_stage]

@[simp] theorem fuStep_stage (env : Env) (req : StudyOrchestrationRequest)
    (now ft : String) :
    (fuStep env req now ft).result.stage = StudyPipelineStage.FOLLOWUP_EXTRACTION := by
  simp only [fuStep]
  repeat' split
  all_goals rfl

theorem fuStep_status_ne_not_run (env : Env) (req : StudyOrchestrationRequest)
    (now ft : String) : (fuStep env req now ft).result.status ≠ StageStatus.NOT_RUN := by
  simp only [fuStep]
  repeat' split
  all_goals simp [record_stage]

@[simp] theorem psStep_stage (env : Env) (req : StudyOrchestrationRequest) (now ft : String)
    (fuOpt : Option FollowUpExtractionResponse) :
    (psStep env req now ft fuOpt).result.stage = StudyPipelineStage.PATIENT_SUMMARY := by
  simp only [psStep]
  repeat' split
  all_goals rfl

theorem psStep_status_ne_not_run (env : Env) (req : StudyOrchestrationRequest)
    (now ft : String) (fuOpt : Option FollowUpExtractionResponse) :
    (psStep env req now ft fuOpt).result.status ≠ StageStatus.NOT_RUN := by
  simp only [psStep]
  repeat' split
  all_goals simp [record_stage]

/-- Shared shape fact: the stages list of every run maps, stage-wise, to the
fixed pipeline order. -/
theorem orchestrate_stages_map (env : Env) (now : String)
    (req : StudyOrchestrationRequest) :
    (orchestrate_study env now req).response.stages.map StageResult.stage
      = pipelineStageOrder := by
  simp only [orchestrate_study]
  cases hd : env.report_drafter (draftRequestOf env req now) with
  | error e => simp [pipelineStageOrder]
  | ok d =>
    by_cases ht : d.report_text = "" <;> simp [ht, pipelineStageOrder]

/-- C1: For every orchestration request, the returned stages list (Ledger)
contains exactly five StageResult entries, exactly one per pipeline stage,
in the fixed order CV_ANALYSIS, REPORT_DRAFT, QA_REVIEW,
FOLLOWUP_EXTRACTION, PATIENT_SUMMARY, regardless of which stages were
skipped, succeeded, or failed. -/
theorem ledger_one_entry_per_stage_in_order (env : Env) (now : String)
    (req : StudyOrchestrationRequest) :
    (orchestrate_study env now req).response.stages.map StageResult.stage
      = pipelineStageOrder :=
  orchestrate_stages_map env now req

/-- C10: In every returned ledger, no StageResult has status NOT_RUN. -/
theorem ledger_never_not_run (env : Env) (now : String)
    (req : StudyOrchestrationRequest) (r : StageResult)
    (hr : r ∈ (orchestrate_study env now req).response.stages) :
    r.status ≠ StageStatus.NOT_RUN := by
  simp only [orchestrate_study] at hr
  rcases hd : env.report_drafter (draftRequestOf env req now) with e | d <;>
    rw [hd] at hr
  · simp at hr
    rcases hr with hr | hr | hr | hr | hr <;> subst hr <;>
      first
        | exact cvStage_status_ne_not_run env req now
        | simp [record_stage]
  · by_cases ht : d.report_text = "" <;> simp [ht] at hr <;>
      rcases hr with hr | hr | hr | hr | hr <;> subst hr <;>
      first
        | exact cvStage_status_ne_not_run env req now
        | exact qaStep_status_ne_not_run env req now _
        | exact fuStep_status_ne_not_run env req now _
        | exact psStep_status_ne_not_run env req now _ _
        | simp [record_stage]

/-- C10 witness: applied to the CV entry of the all-success run. -/
theorem ledger_never_not_run_witness :
    (record_stage "t0" StudyPipelineStage.CV_ANALYSIS StageStatus.SKIPPED none).status
      ≠ StageStatus.NOT_RUN :=
  ledger_never_not_run env0 "t0" request0
    (record_stage "t0" StudyPipelineStage.CV_ANALYSIS StageStatus.SKIPPED none) (by decide)

/-- The returned response is entirely independent of the configured
learning-event sink: emission is fire-and-forget and its outcome is
discarded. -/
theorem orchestrate_response_ignores_sink (env : Env)
    (lr : Option (LearningEvent → Except String Unit)) (now : String)
    (req : StudyOrchestrationRequest) :
    (orchestrate_study { env with learning_repo := lr } now req).response
      = (orchestrate_study env now req).response := by
  have hcv : cvStage { env with learning_repo := lr } req now = cvStage env req now := rfl
  have hdr : draftRequestOf { env with learning_repo := lr } req now
      = draftRequestOf env req now := rfl
  have hrd : ({ env with learning_repo := lr } : Env).report_drafter
      = env.report_drafter := rfl
  cases hd : env.report_drafter (draftRequestOf env req now) with
  | error e => simp only [orchestrate_study, hcv, hdr, hrd, hd]
  | ok d =>
    have hqa : qaStep { env with learning_repo := lr } req now d.report_text
        = qaStep env req now d.report_text := rfl
    have hfu : fuStep { env with learning_repo := lr } req now
        (qaStep env req now d.report_text).finalText
        = fuStep env req now (qaStep env req now d.report_text).finalText := rfl
    have hps : psStep { env with learning_repo := lr } req now
        (qaStep env req now d.report_text).finalText
        (fuStep env req now (qaStep env req now d.report_text).finalText).fu
        = psStep env req now (qaStep env req now d.report_text).finalText
        (fuStep env req now (qaStep env req now d.report_text).finalText).fu := rfl
    simp only [orchestrate_study, hcv, hdr, hrd, hd, hqa, hfu, hps]
    by_cases ht : d.report_text = ""
    · rw [if_pos ht, if_pos ht]
    · rw [if_neg ht, if_neg ht]

/-- C9: For every request and every behavior of the stage executors and the
learning-event sink (any of which may raise), `orchestrate_study` does not
raise to the caller: it is a total function into `RunTrace` (every executor
invocation site pattern-matches both `Except` outcomes), it always returns
a response with a complete five-entry ledger and a bundle, and the returned
response — its `pipeline_status` included — is identical under any two sink
behaviors. -/
theorem orchestrate_total_and_sink_failure_isolated (env : Env) (now : String)
    (req : StudyOrchestrationRequest)
    (s1 s2 : LearningEvent → Except String Unit) :
    (orchestrate_study { env with learning_repo := some s1 } now req).response.stages.map
        StageResult.stage = pipelineStageOrder ∧
    (orchestrate_study { env with learning_repo := some s1 } now req).response
      = (orchestrate_study { env with learning_repo := some s2 } now req).response :=
  ⟨orchestrate_stages_map _ now req,
   (orchestrate_response_ignores_sink env (some s1) now req).trans
     (orchestrate_response_ignores_sink env (some s2) now req).symm⟩

/-- C2 counterexample: with a report drafter that raises `"LLM Error"`, the
REPORT_DRAFT stage is recorded FAILED and the downstream skip reason is the
capitalized string "Upstream dependency failed", so it differs from the
reason "upstream dependency failed" stated in the claim. -/
theorem upstream_skip_reason_counterexample :
    stageStatusOf (orchestrate_study envDraftFails "t0" request0).response
        StudyPipelineStage.REPORT_DRAFT = some StageStatus.FAILED ∧
    stageErrorOf (orchestrate_study envDraftFails "t0" request0).response
        StudyPipelineStage.QA_REVIEW = some "Upstream dependency failed" ∧
    stageErrorOf (orchestrate_study envDraftFails "t0" request0).response
        StudyPipelineStage.QA_REVIEW ≠ some "upstream dependency failed" := by
  refine ⟨by decide, by decide, by decide⟩

/-- C2 (amended: the recorded reason string is "Upstream dependency failed",
with a capital U): whenever the REPORT_DRAFT stage is recorded FAILED, the
QA_REVIEW, FOLLOWUP_EXTRACTION and PATIENT_SUMMARY stages are all recorded
SKIPPED with reason "Upstream dependency failed", none of their executors
is invoked, and the returned pipeline status is FAILED. -/
theorem upstream_skips_on_recorded_draft_failure (env : Env) (now : String)
    (req : StudyOrchestrationRequest)
    (h : stageStatusOf (orchestrate_study env now req).response
           StudyPipelineStage.REPORT_DRAFT = some StageStatus.FAILED) :
    stageStatusOf (orchestrate_study env now req).response StudyPipelineStage.QA_REVIEW
        = some StageStatus.SKIPPED ∧
    stageErrorOf (orchestrate_study env now req).response StudyPipelineStage.QA_REVIEW
        = some "Upstream dependency failed" ∧
    stageStatusOf (orchestrate_study env now req).response
        StudyPipelineStage.FOLLOWUP_EXTRACTION = some StageStatus.SKIPPED ∧
    stageErrorOf (orchestrate_study env now req).response
        StudyPipelineStage.FOLLOWUP_EXTRACTION = some "Upstream dependency failed" ∧
    stageStatusOf (orchestrate_study env now req).response
        StudyPipelineStage.PATIENT_SUMMARY = some StageStatus.SKIPPED ∧
    stageErrorOf (orchestrate_study env now req).response
        StudyPipelineStage.PATIENT_SUMMARY = some "Upstream dependency failed" ∧
    (orchestrate_study env now req).calls.qa = [] ∧
    (orchestrate_study env now req).calls.followup = [] ∧
    (orchestrate_study env now req).calls.summary = [] ∧
    (orchestrate_study env now req).response.pipeline_status = PipelineStatus.FAILED := by
  rcases hd : env.report_drafter (draftRequestOf env req now) with e | d
  · simp only [orchestrate_study, hd]
    simp [stageStatusOf, stageErrorOf, stageEntry, List.find?]
  · exfalso
    simp only [orchestrate_study, hd] at h
    by_cases ht : d.report_text = "" <;>
      simp [ht, stageStatusOf, stageEntry, List.find?] at h

/-- C2 witness: the amended implication applied to the concrete failing
drafter. -/
theorem upstream_skips_on_recorded_draft_failure_witness :
    stageStatusOf (orchestrate_study envDraftFails "t0" request0).response
        StudyPipelineStage.QA_REVIEW = some StageStatus.SKIPPED ∧
    (orchestrate_study envDraftFails "t0" request0).calls.qa = [] :=
  have h := upstream_skips_on_recorded_draft_failure envDraftFails "t0" request0 (by decide)
  ⟨h.1, h.2.2.2.2.2.2.1⟩

/-- C3 counterexample: with a drafter returning an empty-text draft, the
returned pipeline status is FAILED although the recorded REPORT_DRAFT
status is SUCCESS and no recorded stage has status FAILED, so FAILED does
not hold exactly when the REPORT_DRAFT stage's recorded status is FAILED. -/
theorem pipeline_status_iff_counterexample :
    (orchestrate_study envDraftEmpty "t0" request0).response.pipeline_status
        = PipelineStatus.FAILED ∧
    stageStatusOf (orchestrate_study envDraftEmpty "t0" request0).response
        StudyPipelineStage.REPORT_DRAFT ≠ some StageStatus.FAILED ∧
    ((orchestrate_study envDraftEmpty "t0" request0).response.stages.all
        fun r => r.status ≠ StageStatus.FAILED) = true :=
  ⟨by decide, by decide, by decide⟩

/-- C3 (amended: the FAILED case is keyed to the critical draft failure,
the executor raising or returning empty report text, rather than to the
recorded REPORT_DRAFT status, which stays SUCCESS in the empty-text case):
the pipeline status is FAILED exactly when the draft executor raised or
returned empty text; otherwise it is PARTIAL_SUCCESS exactly when at least
one recorded stage has status FAILED; otherwise it is SUCCESS, so SKIPPED
stages never downgrade the status. -/
theorem pipeline_status_characterization (env : Env) (now : String)
    (req : StudyOrchestrationRequest) :
    ((orchestrate_study env now req).response.pipeline_status = PipelineStatus.FAILED ↔
       (∃ e, env.report_drafter (draftRequestOf env req now) = Except.error e) ∨
       (∃ d, env.report_drafter (draftRequestOf env req now) = Except.ok d ∧
             d.report_text = "")) ∧
    ((orchestrate_study env now req).response.pipeline_status ≠ PipelineStatus.FAILED →
       ((orchestrate_study env now req).response.pipeline_status
           = PipelineStatus.PARTIAL_SUCCESS ↔
         ∃ r ∈ (orchestrate_study env now req).response.stages,
           r.status = StageStatus.FAILED)) ∧
    ((orchestrate_study env now req).response.pipeline_status ≠ PipelineStatus.FAILED ∧
       (∀ r ∈ (orchestrate_study env now req).response.stages,
          r.status ≠ StageStatus.FAILED) →
       (orchestrate_study env now req).response.pipeline_status = PipelineStatus.SUCCESS) := by
  cases hd : env.report_drafter (draftRequestOf env req now) with
  | error e =>
    simp only [orchestrate_study, hd]
    simp
  | ok d =>
    by_cases ht : d.report_text = ""
    · simp only [orchestrate_study, hd]
      simp [ht]
    · simp only [orchestrate_study, hd, if_neg ht]
      refine ⟨?_, ?_, ?_⟩
      · split_ifs with hany <;> simp_all
      · intro _
        split_ifs with hany <;> simp_all
      · rintro ⟨_, hall⟩
        split_ifs with hany <;> simp_all

/-- C3 witness: the characterization applied to the all-success run. -/
theorem pipeline_status_characterization_witness :
    (orchestrate_study env0 "t0" request0).response.pipeline_status
        = PipelineStatus.SUCCESS :=
  (pipeline_status_characterization env0 "t0" request0).2.2 ⟨by decide, by decide⟩

/-- C4 counterexample: an executor that returns without raising but with
empty report_text gets its REPORT_DRAFT stage recorded SUCCESS, not FAILED
as the claim states. -/
theorem empty_draft_recorded_success_counterexample :
    envDraftEmpty.report_drafter (draftRequestOf envDraftEmpty request0 "t0")
        = Except.ok draftEmpty ∧
    draftEmpty.report_text = "" ∧
    stageStatusOf (orchestrate_study envDraftEmpty "t0" request0).response
        StudyPipelineStage.REPORT_DRAFT = some StageStatus.SUCCESS ∧
    (StageStatus.SUCCESS : StageStatus) ≠ StageStatus.FAILED :=
  ⟨rfl, rfl, by decide, by decide⟩

/-- C4 (amended): if the report-draft executor returns without raising but
its result carries empty report_text, the coordinator records REPORT_DRAFT
as SUCCESS (not FAILED), yet still short-circuits like a draft failure: the
three downstream stages are SKIPPED with reason "Upstream dependency
failed", their executors are not invoked, and the pipeline status is
FAILED. -/
theorem empty_draft_text_short_circuits (env : Env) (now : String)
    (req : StudyOrchestrationRequest) (d : ReportDraft)
    (hok : env.report_drafter (draftRequestOf env req now) = Except.ok d)
    (ht : d.report_text = "") :
    stageStatusOf (orchestrate_study env now req).response
        StudyPipelineStage.REPORT_DRAFT = some StageStatus.SUCCESS ∧
    stageStatusOf (orchestrate_study env now req).response StudyPipelineStage.QA_REVIEW
        = some StageStatus.SKIPPED ∧
    stageStatusOf (orchestrate_study env now req).response
        StudyPipelineStage.FOLLOWUP_EXTRACTION = some StageStatus.SKIPPED ∧
    stageStatusOf (orchestrate_study env now req).response
        StudyPipelineStage.PATIENT_SUMMARY = some StageStatus.SKIPPED ∧
    stageErrorOf (orchestrate_study env now req).response StudyPipelineStage.QA_REVIEW
        = some "Upstream dependency failed" ∧
    stageErrorOf (orchestrate_study env now req).response
        StudyPipelineStage.FOLLOWUP_EXTRACTION = some "Upstream dependency failed" ∧
    stageErrorOf (orchestrate_study env now req).response
        StudyPipelineStage.PATIENT_SUMMARY = some "Upstream dependency failed" ∧
    (orchestrate_study env now req).calls.qa = [] ∧
    (orchestrate_study env now req).calls.followup = [] ∧
    (orchestrate_study env now req).calls.summary = [] ∧
    (orchestrate_study env now req).response.pipeline_status = PipelineStatus.FAILED := by
  simp only [orchestrate_study, hok]
  simp [ht, stageStatusOf, stageErrorOf, stageEntry, List.find?]

/-- C4 witness: the amended statement applied to the concrete empty-text
drafter. -/
theorem empty_draft_text_short_circuits_witness :
    stageStatusOf (orchestrate_study envDraftEmpty "t0" request0).response
        StudyPipelineStage.REPORT_DRAFT = some StageStatus.SUCCESS ∧
    (orchestrate_study envDraftEmpty "t0" request0).response.pipeline_status
        = PipelineStatus.FAILED :=
  have h := empty_draft_text_short_circuits envDraftEmpty "t0" request0 draftEmpty rfl rfl
  ⟨h.1, h.2.2.2.2.2.2.2.2.2.2⟩

/-! Helper lemmas for the QA text derivation and the CV gating. -/

theorem qaStep_finalText_of_some (env : Env) (req : StudyOrchestrationRequest)
    (now t : String) (q : ReportQAResponse)
    (h : (qaStep env req now t).qa = some q) :
    (qaStep env req now t).finalText
      = match q.normalized_report_text with
        | some n => if n = "" then t else n
        | none => t := by
  by_cases hrun : req.pipeline_options.run_qa_review
  · rcases hq : env.qa_agent
        { exam_metadata := req.exam_metadata, report_text := t, qa_requirements := none }
        with e | qr
    · simp [qaStep, hrun, hq] at h
    · simp only [qaStep, hrun, if_true, hq] at h ⊢
      simp only [Option.some.injEq] at h
      subst h
      rfl
  · simp [qaStep, hrun] at h

theorem qaStep_finalText_of_none (env : Env) (req : StudyOrchestrationRequest)
    (now t : String) (h : (qaStep env req now t).qa = none) :
    (qaStep env req now t).finalText = t := by
  by_cases hrun : req.pipeline_options.run_qa_review
  · rcases hq : env.qa_agent
        { exam_metadata := req.exam_metadata, report_text := t, qa_requirements := none }
        with e | qr
    · simp [qaStep, hrun, hq]
    · simp [qaStep, hrun, hq] at h
  · simp [qaStep, hrun]

theorem fuStep_calls_report_text (env : Env) (req : StudyOrchestrationRequest)
    (now ft : String) (r : FollowUpExtractionRequest)
    (hr : r ∈ (fuStep env req now ft).calls) : r.report_text = ft := by
  by_cases hrun : req.pipeline_options.run_followup_extraction
  · rcases hf : env.followup_agent { exam_metadata := req.exam_metadata, report_text := ft }
        with e | fr <;> simp [fuStep, hrun, hf] at hr <;> subst hr <;> rfl
  · simp [fuStep, hrun] at hr

theorem psStep_calls_report_text (env : Env) (req : StudyOrchestrationRequest)
    (now ft : String) (fuOpt : Option FollowUpExtractionResponse)
    (r : PatientReportSummaryRequest)
    (hr : r ∈ (psStep env req now ft fuOpt).calls) : r.report_text = ft := by
  by_cases hrun : req.pipeline_options.run_patient_summary
  · rcases hp : env.patient_explainer
        { exam_metadata := req.exam_metadata, report_text := ft, followup_data := fuOpt,
          reading_level := PatientReadingLevel.SIMPLE, tone := PatientSummaryTone.NEUTRAL,
          language_code := req.language_code }
        with e | pr <;> simp [psStep, hrun, hp] at hr <;> subst hr <;> rfl
  · simp [psStep, hrun] at hr

/-- C5: For every run in which the draft stage produced non-empty report
text, the returned `bundle.final_report_text` equals the QA result's
`normalized_report_text` when the QA stage ran successfully (that is,
`bundle.qa_result` is set) and that normalized text is present and
non-empty, and otherwise (QA disabled, QA failed, or QA succeeded with
absent/empty normalized text) equals the raw draft report text; and both
later stages are invoked, if at all, on exactly this final report text. -/
theorem final_report_text_derivation (env : Env) (now : String)
    (req : StudyOrchestrationRequest) (d : ReportDraft)
    (hok : env.report_drafter (draftRequestOf env req now) = Except.ok d)
    (hne : d.report_text ≠ "") :
    (∀ q, (orchestrate_study env now req).response.bundle.qa_result = some q →
       (∀ n, q.normalized_report_text = some n → n ≠ "" →
          (orchestrate_study env now req).response.bundle.final_report_text = some n) ∧
       ((q.normalized_report_text = none ∨ q.normalized_report_text = some "") →
          (orchestrate_study env now req).response.bundle.final_report_text
            = some d.report_text)) ∧
    ((orchestrate_study env now req).response.bundle.qa_result = none →
       (orchestrate_study env now req).response.bundle.final_report_text
         = some d.report_text) ∧
    (∀ r ∈ (orchestrate_study env now req).calls.followup,
       some r.report_text = (orchestrate_study env now req).response.bundle.final_report_text) ∧
    (∀ r ∈ (orchestrate_study env now req).calls.summary,
       some r.report_text = (orchestrate_study env now req).response.bundle.final_report_text) := by
  simp only [orchestrate_study, hok, if_neg hne]
  refine ⟨?_, ?_, ?_, ?_⟩
  · intro q hq
    have hft := qaStep_finalText_of_some env req now d.report_text q hq
    constructor
    · intro n hn hne2
      simp [hft, hn, hne2]
    · rintro (hn | hn) <;> simp [hft, hn]
  · intro hq
    have hft := qaStep_finalText_of_none env req now d.report_text hq
    simp [hft]
  · intro r hr
    simp [fuStep_calls_report_text env req now _ r hr]
  · intro r hr
    simp [psStep_calls_report_text env req now _ _ r hr]

/-- C5 witness: with the clean QA agent the final text is the non-empty
normalized text. -/
theorem final_report_text_derivation_witness :
    (orchestrate_study env0 "t0" request0).response.bundle.final_report_text
        = some "Clean Report" :=
  ((final_report_text_derivation env0 "t0" request0 draft0 rfl (by decide)).1
      qaResp0 (by decide)).1 "Clean Report" rfl (by decide)

/-- The CV ledger entry of every run is the CV block's stage result (its
status and error fields included), and the CV invocation list of every run
is the CV block's. -/
theorem orchestrate_cv_projection (env : Env) (now : String)
    (req : StudyOrchestrationRequest) :
    stageStatusOf (orchestrate_study env now req).response StudyPipelineStage.CV_ANALYSIS
      = some (cvStage env req now).result.status ∧
    stageErrorOf (orchestrate_study env now req).response StudyPipelineStage.CV_ANALYSIS
      = (cvStage env req now).result.error ∧
    (orchestrate_study env now req).calls.cv = (cvStage env req now).calls := by
  cases hd : env.report_drafter (draftRequestOf env req now) with
  | error e =>
    simp only [orchestrate_study, hd]
    simp [stageStatusOf, stageErrorOf, stageEntry, List.find?]
  | ok d =>
    by_cases ht : d.report_text = "" <;>
      simp only [orchestrate_study, hd] <;>
      simp [ht, stageStatusOf, stageErrorOf, stageEntry, List.find?]

theorem cvStage_skipped_no_reason (env : Env) (req : StudyOrchestrationRequest)
    (now : String)
    (h : req.pipeline_options.run_cv_analysis = false ∨ env.cv_agent = none ∨
         imageRefsPresent req.image_references = false) :
    (cvStage env req now).result.status = StageStatus.SKIPPED ∧
    (cvStage env req now).result.error = none ∧
    (cvStage env req now).calls = [] := by
  rcases hcv : env.cv_agent with _ | hl
  · rcases him : req.image_references with _ | ⟨_ | ⟨ref, rest⟩⟩ <;>
      simp [cvStage, hcv, him]
  · rcases him : req.image_references with _ | ⟨_ | ⟨ref, rest⟩⟩
    · simp [cvStage, hcv, him, imageRefsPresent]
    · simp [cvStage, hcv, him, imageRefsPresent]
    · rcases h with h | h | h
      · simp [cvStage, hcv, him, h]
      · rw [hcv] at h
        simp at h
      · rw [him] at h
        simp [imageRefsPresent] at h

theorem cvStage_skipped_missing_file_path (env : Env) (req : StudyOrchestrationRequest)
    (now : String) (hl : CVHighlightRequest → List Nat → Except String CVHighlightResult)
    (ref : ImageRef) (rest : List ImageRef)
    (hcv : env.cv_agent = some hl)
    (him : req.image_references = some (ref :: rest))
    (hrun : req.pipeline_options.run_cv_analysis = true)
    (hlk : List.lookup "file_path" ref = none) :
    (cvStage env req now).result.status = StageStatus.SKIPPED ∧
    (cvStage env req now).result.error = some "No file_path in image_references" ∧
    (cvStage env req now).calls = [] := by
  simp [cvStage, hcv, him, hrun, hlk]

theorem cvStage_failed_of_unreadable (env : Env) (req : StudyOrchestrationRequest)
    (now : String) (hl : CVHighlightRequest → List Nat → Except String CVHighlightResult)
    (ref : ImageRef) (rest : List ImageRef) (path e : String)
    (hcv : env.cv_agent = some hl)
    (him : req.image_references = some (ref :: rest))
    (hrun : req.pipeline_options.run_cv_analysis = true)
    (hlk : List.lookup "file_path" ref = some path)
    (hrf : env.read_file path = Except.error e) :
    (cvStage env req now).result.status = StageStatus.FAILED ∧
    (cvStage env req now).result.error = some e ∧
    (cvStage env req now).calls = [] := by
  simp [cvStage, hcv, him, hrun, hlk, hrf]

/-- C6 counterexample: with CV enabled, a CV agent configured, and one
image reference whose `file_path` does not resolve to a readable file, the
CV stage is recorded FAILED with the read error, not SKIPPED, and so a
missing "readable image source" precondition does not yield SKIPPED. -/
theorem cv_unreadable_failed_counterexample :
    requestWithImage.pipeline_options.run_cv_analysis = true ∧
    envCVUnreadable.cv_agent.isSome = true ∧
    requestWithImage.image_references = some [[("file_path", "/data/img1.dcm")]] ∧
    envCVUnreadable.read_file "/data/img1.dcm"
        = Except.error "No such file or directory" ∧
    stageStatusOf (orchestrate_study envCVUnreadable "t0" requestWithImage).response
        StudyPipelineStage.CV_ANALYSIS = some StageStatus.FAILED ∧
    stageErrorOf (orchestrate_study envCVUnreadable "t0" requestWithImage).response
        StudyPipelineStage.CV_ANALYSIS = some "No such file or directory" ∧
    some StageStatus.FAILED ≠ some StageStatus.SKIPPED :=
  ⟨rfl, rfl, rfl, rfl, by decide, by decide, by decide⟩

/-- C6 (amended): the CV stage is recorded SKIPPED (never FAILED) and the
CV executor is not invoked whenever `run_cv_analysis` is false, no CV
executor is configured, or `image_references` is empty or absent — these
record no reason string; when instead all those preconditions hold but the
first image reference lacks a `file_path` entry, the stage is recorded
SKIPPED with reason "No file_path in image_references" and the executor is
not invoked; and if the first reference carries a `file_path` that cannot
be read, the stage is recorded FAILED with the read error, still without
invoking the executor. -/
theorem cv_gating (env : Env) (now : String) (req : StudyOrchestrationRequest) :
    ((req.pipeline_options.run_cv_analysis = false ∨ env.cv_agent = none ∨
      imageRefsPresent req.image_references = false) →
     stageStatusOf (orchestrate_study env now req).response StudyPipelineStage.CV_ANALYSIS
        = some StageStatus.SKIPPED ∧
     stageErrorOf (orchestrate_study env now req).response StudyPipelineStage.CV_ANALYSIS
        = none ∧
     (orchestrate_study env now req).calls.cv = []) ∧
    (∀ hl ref rest, env.cv_agent = some hl →
       req.image_references = some (ref :: rest) →
       req.pipeline_options.run_cv_analysis = true →
       List.lookup "file_path" ref = none →
       stageStatusOf (orchestrate_study env now req).response StudyPipelineStage.CV_ANALYSIS
          = some StageStatus.SKIPPED ∧
       stageErrorOf (orchestrate_study env now req).response StudyPipelineStage.CV_ANALYSIS
          = some "No file_path in image_references" ∧
       (orchestrate_study env now req).calls.cv = []) ∧
    (∀ hl ref rest path e, env.cv_agent = some hl →
       req.image_references = some (ref :: rest) →
       req.pipeline_options.run_cv_analysis = true →
       List.lookup "file_path" ref = some path →
       env.read_file path = Except.error e →
       stageStatusOf (orchestrate_study env now req).response StudyPipelineStage.CV_ANALYSIS
          = some StageStatus.FAILED ∧
       stageErrorOf (orchestrate_study env now req).response StudyPipelineStage.CV_ANALYSIS
          = some e ∧
       (orchestrate_study env now req).calls.cv = []) := by
  obtain ⟨hstat, herr, hcalls⟩ := orchestrate_cv_projection env now req
  refine ⟨?_, ?_, ?_⟩
  · intro h
    obtain ⟨h1, h2, h3⟩ := cvStage_skipped_no_reason env req now h
    exact ⟨by rw [hstat, h1], by rw [herr, h2], by rw [hcalls, h3]⟩
  · intro hl ref rest hcv him hrun hlk
    obtain ⟨h1, h2, h3⟩ :=
      cvStage_skipped_missing_file_path env req now hl ref rest hcv him hrun hlk
    exact ⟨by rw [hstat, h1], by rw [herr, h2], by rw [hcalls, h3]⟩
  · intro hl ref rest path e hcv him hrun hlk hrf
    obtain ⟨h1, h2, h3⟩ :=
      cvStage_failed_of_unreadable env req now hl ref rest path e hcv him hrun hlk hrf
    exact ⟨by rw [hstat, h1], by rw [herr, h2], by rw [hcalls, h3]⟩

/-- C6 witness: the amended statement applied to a request with no image
references. -/
theorem cv_gating_witness :
    stageStatusOf (orchestrate_study env0 "t0" request0).response
        StudyPipelineStage.CV_ANALYSIS = some StageStatus.SKIPPED ∧
    stageErrorOf (orchestrate_study env0 "t0" request0).response
        StudyPipelineStage.CV_ANALYSIS = none ∧
    (orchestrate_study env0 "t0" request0).calls.cv = [] :=
  (cv_gating env0 "t0" request0).1 (Or.inr (Or.inr rfl))

/-! Helper lemmas for the learning-event emission. -/

theorem maxSevLoop_spec (issues : List QAIssue) (acc : DiscrepancySeverity)
    (hacc : acc ≠ DiscrepancySeverity.CRITICAL) :
    maxSevLoop issues acc =
      if issues.any criticalIssue then DiscrepancySeverity.CRITICAL
      else if issues.any majorIssue then DiscrepancySeverity.MAJOR
      else acc := by
  induction issues generalizing acc with
  | nil => simp [maxSevLoop]
  | cons i rest ih =>
    rcases hsev : i.severity
    · simp [maxSevLoop, sev_map, hsev, criticalIssue, List.any_cons]
    · have h2 := ih DiscrepancySeverity.MAJOR (by simp)
      simp [maxSevLoop, sev_map, hsev, criticalIssue, majorIssue, List.any_cons, h2, hacc]
    · simp [maxSevLoop, sev_map, hsev, criticalIssue, majorIssue, List.any_cons, ih _ hacc]
    · simp [maxSevLoop, sev_map, hsev, criticalIssue, majorIssue, List.any_cons, ih _ hacc]

theorem any_major_of_significant (issues : List QAIssue)
    (h : issues.any significantIssue = true)
    (hc : issues.any criticalIssue = false) :
    issues.any majorIssue = true := by
  simp only [List.any_eq_true] at h ⊢
  obtain ⟨i, hi, hsig⟩ := h
  refine ⟨i, hi, ?_⟩
  simp only [significantIssue, decide_eq_true_eq] at hsig
  rcases hsig with hs | hs
  · exfalso
    have hany : issues.any criticalIssue = true :=
      List.any_eq_true.mpr ⟨i, hi, by simp [criticalIssue, hs]⟩
    rw [hany] at hc
    simp at hc
  · simp [majorIssue, hs]

theorem emitLearning_spec (env : Env) (req : StudyOrchestrationRequest) (now : String)
    (d : ReportDraft) (qaOpt : Option ReportQAResponse) (ft : String) :
    ((emitLearning env req now d qaOpt ft).length = 1 ↔
       (req.dry_run = false ∧ env.learning_repo.isSome = true ∧
        (∃ rid, req.radiologist_id = some rid ∧ rid ≠ "") ∧
        (∃ q, qaOpt = some q ∧ q.issues.any significantIssue = true))) ∧
    (emitLearning env req now d qaOpt ft).length ≤ 1 := by
  rcases hlr : env.learning_repo with _ | sf <;>
    rcases hrid : req.radiologist_id with _ | rid <;>
    rcases hqa : qaOpt with _ | q <;>
    simp [emitLearning, hlr, hrid, hqa]
  constructor
  · constructor
    · intro hlen
      split_ifs at hlen with h1 h2
      · exact ⟨by simpa using h1.1, h1.2.1, h2⟩
      · simp at hlen
      · simp at hlen
    · rintro ⟨hdry, hridne, hany⟩
      have hiss : q.issues ≠ [] := by
        intro hnil
        rw [hnil] at hany
        simp at hany
      rw [if_pos ⟨by simp [hdry], hridne, hiss⟩, if_pos hany]
      rfl
  · split_ifs with h1 h2 <;> simp

theorem emitLearning_mem (env : Env) (req : StudyOrchestrationRequest) (now : String)
    (d : ReportDraft) (qaOpt : Option ReportQAResponse) (ft : String) (e : LearningEvent)
    (he : e ∈ emitLearning env req now d qaOpt ft) :
    ∃ q, qaOpt = some q ∧ q.issues.any significantIssue = true ∧
      e.source = "orchestrator_pipeline" ∧
      e.event_type = LearningEventType.QA_ISSUE ∧
      e.qa_issues = some q.issues ∧
      e.severity = maxSevLoop q.issues DiscrepancySeverity.INFO ∧
      e.report_text_before = some d.report_text ∧
      e.report_text_after = some ft := by
  rcases hlr : env.learning_repo with _ | sf <;>
    rcases hrid : req.radiologist_id with _ | rid <;>
    rcases hqa : qaOpt with _ | q <;>
    simp only [emitLearning, hlr, hrid, hqa] at he
  all_goals try (exact absurd he (List.not_mem_nil e))
  split_ifs at he with h1 h2
  · simp only [List.mem_singleton] at he
    subst he
    exact ⟨q, rfl, h2, rfl, rfl, rfl, rfl, rfl, rfl⟩
  · simp at he
  · simp at he

/-- C7: A learning event is handed to the learning-event sink exactly once
per run when all of the following hold: dry_run is false, a learning-event
sink is configured, radiologist_id is set (non-empty) on the request, and
the QA stage produced at least one issue of severity MAJOR or CRITICAL; in
every other case no learning event is emitted (the hand-off count is at
most one and equals one exactly under that condition). -/
theorem learning_event_emission_iff (env : Env) (now : String)
    (req : StudyOrchestrationRequest) :
    ((orchestrate_study env now req).calls.save.length = 1 ↔
       (req.dry_run = false ∧ env.learning_repo.isSome = true ∧
        (∃ rid, req.radiologist_id = some rid ∧ rid ≠ "") ∧
        (∃ q, (orchestrate_study env now req).response.bundle.qa_result = some q ∧
           q.issues.any significantIssue = true))) ∧
    (orchestrate_study env now req).calls.save.length ≤ 1 := by
  cases hd : env.report_drafter (draftRequestOf env req now) with
  | error e =>
    simp only [orchestrate_study, hd]
    simp
  | ok d =>
    by_cases ht : d.report_text = ""
    · simp only [orchestrate_study, hd]
      simp [ht]
    · simp only [orchestrate_study, hd, if_neg ht]
      exact emitLearning_spec env req now d (qaStep env req now d.report_text).qa
        (qaStep env req now d.report_text).finalText

/-- C7 witness: the emission condition holds for the concrete MAJOR-issue
QA run, and the event is handed over exactly once. -/
theorem learning_event_emission_iff_witness :
    (orchestrate_study envQAMajor "t0" request0).calls.save.length = 1 :=
  (learning_event_emission_iff envQAMajor "t0" request0).1.mpr
    ⟨rfl, rfl, ⟨"R1", rfl, by decide⟩, ⟨qaRespMajor, by decide, by decide⟩⟩

/-- C8 counterexample: the emitted learning event's source tag is
"orchestrator_pipeline", not "orchestrator" as the claim states. -/
theorem learning_event_source_counterexample :
    (orchestrate_study envQAMajor "t0" request0).calls.save.map LearningEvent.source
      = ["orchestrator_pipeline"] ∧
    "orchestrator_pipeline" ≠ "orchestrator" :=
  ⟨by decide, by decide⟩

/-- C8 (amended: the source tag is "orchestrator_pipeline"): whenever a
learning event is emitted, its severity equals the highest severity among
the QA issues (CRITICAL taking precedence over MAJOR), its source tag
equals "orchestrator_pipeline", its report_text_before equals the draft's
report text, its report_text_after equals the final working text, and it
carries the full list of QA issues. -/
theorem learning_event_fields (env : Env) (now : String)
    (req : StudyOrchestrationRequest) (e : LearningEvent)
    (he : e ∈ (orchestrate_study env now req).calls.save) :
    e.source = "orchestrator_pipeline" ∧
    (∃ q, (orchestrate_study env now req).response.bundle.qa_result = some q ∧
       e.qa_issues = some q.issues ∧
       e.severity = (if q.issues.any criticalIssue then DiscrepancySeverity.CRITICAL
                     else DiscrepancySeverity.MAJOR)) ∧
    (∃ d, (orchestrate_study env now req).response.bundle.report_draft = some d ∧
       e.report_text_before = some d.report_text) ∧
    e.report_text_after = (orchestrate_study env now req).response.bundle.final_report_text := by
  cases hd : env.report_drafter (draftRequestOf env req now) with
  | error e2 =>
    rw [orchestrate_study] at he
    simp only [hd] at he
    simp at he
  | ok d =>
    by_cases ht : d.report_text = ""
    · rw [orchestrate_study] at he
      simp only [hd, ht] at he
      simp at he
    · rw [orchestrate_study] at he
      simp only [hd, if_neg ht] at he
      simp only [orchestrate_study, hd, if_neg ht]
      obtain ⟨q, hq, hsig, hsrc, hevt, hiss, hsev, hbef, haft⟩ :=
        emitLearning_mem env req now d _ _ e he
      refine ⟨hsrc, ⟨q, by simp [hq], hiss, ?_⟩, ⟨d, by simp, hbef⟩, by simp [haft]⟩
      rw [hsev, maxSevLoop_spec q.issues DiscrepancySeverity.INFO (by simp)]
      cases hcrit : q.issues.any criticalIssue
      · have hmaj := any_major_of_significant q.issues hsig hcrit
        simp [hcrit, hmaj]
      · simp [hcrit]

/-- C8 witness: the concrete emitted event of the MAJOR-issue run. -/
theorem learning_event_fields_witness :
    eventW.source = "orchestrator_pipeline" :=
  (learning_event_fields envQAMajor "t0" request0 eventW (by decide)).1

end RadAssistant
